import Mathlib

/-!
Shallow embedding of the `bluest` BLE library excerpt, covering:
- `src/corebluetooth/descriptor.rs` (DescriptorImpl: value, read, write; value_to_slice)
- `src/windows/characteristic.rs`  (Characteristic: value, read, notify lifecycle)
- `src/bluer/adapter.rs`           (AdapterImpl: events, wait_available,
                                    connected_devices_with_services, scan, discover_devices)

Machine integers are modelled as `Nat` with explicit `% 2^w` where overflow matters.
Streams are modelled as finite lists of events; peer I/O is modelled as an explicit
effect trace emitted alongside the result.
-/

namespace Bluest

/-- Error taxonomy of the library (`crate::error::ErrorKind`).  `other` stands for the
passthrough category wrapping backend-native failures (the `From` impls for native
errors live outside the provided sources). -/
inductive ErrorKind where
  | notConnected
  | notReady
  | notSupported
  | serviceChanged
  | internal
  | other
  deriving DecidableEq, Repr

/-- Shared error value: a kind plus a human-readable message (`crate::Error`). -/
structure Error where
  kind : ErrorKind
  message : String
  deriving DecidableEq, Repr

/-! ## CoreBluetooth descriptor model (`src/corebluetooth/descriptor.rs`) -/

/-- Model of the Objective-C object held in `CBDescriptor.value`.  The Rust code
distinguishes four shapes with `is_kind_of`: an `NSNumber` (read through
`unsignedShortValue`, a `u16`), an `NSString` (whose `UTF8String` pointer may be null),
an `NSData` (whose `bytes` pointer may be null), and any other object.  Byte buffers
are lists of `Nat` (< 256 in well-formed values; the code copies bytes verbatim). -/
inductive NSValue where
  | number (n : Nat)
  | string (bytes : Option (List Nat))
  | data (bytes : Option (List Nat))
  | otherObject
  deriving DecidableEq, Repr

/-- Embedding of `value_to_slice` (descriptor.rs lines 17-45).  An `NSNumber` is read as
a `u16` and serialized little-endian (`to_le_bytes`); an `NSString`/`NSData` with a null
pointer yields the empty slice; any other object class yields `Vec::new()`. -/
def value_to_slice (val : NSValue) : List Nat :=
  match val with
  | .number n => [n % 2 ^ 16 % 2 ^ 8, n % 2 ^ 16 / 2 ^ 8]
  | .string none => []
  | .string (some bs) => bs
  | .data none => []
  | .data (some bs) => bs
  | .otherObject => []

/-- Identity of a native event-channel peer: events carry the `CBDescriptor` or
`CBService` they concern; we model those identities as naturals. -/
abbrev ObjId := Nat

/-- Model of an `NSError` payload: an opaque code. -/
abbrev NSError := Nat

/-- Events broadcast on the peripheral delegate channel
(`super::delegates::PeripheralEvent`), as matched by `DescriptorImpl::read`/`write`:
a descriptor value update (carrying, per CoreBluetooth semantics, the new native
`CBDescriptor.value` that the stack stored before firing the delegate), a descriptor
write completion, a disconnection, a service invalidation, or any other event (the
`_ => ()` arm). -/
inductive PeripheralEvent where
  | descriptorValueUpdate (descriptor : ObjId) (newValue : Option NSValue) (error : Option NSError)
  | descriptorValueWrite (descriptor : ObjId) (error : Option NSError)
  | disconnected (error : Option NSError)
  | servicesChanged (invalidatedServices : List ObjId)
  | otherEvent
  deriving DecidableEq, Repr

/-- Model of `CBPeripheralState`. -/
inductive CBPeripheralState where
  | disconnected
  | connecting
  | connected
  | disconnecting
  deriving DecidableEq, Repr

/-- State of one `DescriptorImpl` and its surrounding native objects: the descriptor's
identity, the owning service (`None` models `characteristic().service()` returning
`None` after deallocation), the peripheral's connection state, and the descriptor's
cached native value. -/
structure DescState where
  descriptorId : ObjId
  serviceId : Option ObjId
  peripheralState : CBPeripheralState
  nativeValue : Option NSValue
  deriving DecidableEq, Repr

/-- Outcome of a Rust call that can also panic (`expect`/`assert!`). -/
inductive RustOutcome (α : Type) where
  | panicked
  | ok (a : α)
  | err (e : Error)
  deriving DecidableEq, Repr

/-- Embedding of `DescriptorImpl::value` (descriptor.rs lines 77-85): `Ok` of the
converted native value when present, otherwise a `NotReady` error.  The method touches
only the in-process `CBDescriptor.value`; it performs no peer I/O. -/
def DescriptorImpl.value (nativeValue : Option NSValue) : Except Error (List Nat) :=
  match nativeValue with
  | some val => .ok (value_to_slice val)
  | none => .error ⟨.notReady, "the descriptor value has not been read"⟩

/-- Error built by `Error::from_recv_error` when the delegate broadcast channel closes
(the helper lives outside the provided sources; modelled as the passthrough kind). -/
def recvClosedError : Error := ⟨.other, "delegate event channel closed"⟩

/-- Error built by `Error::from_nserror` (outside the provided sources; modelled as the
passthrough kind carrying the native code in the message). -/
def fromNSError (e : NSError) : Error := ⟨.other, toString e⟩

/-- Event loop of `DescriptorImpl::read` (descriptor.rs lines 99-116): consumes delegate
events in order; a value update for this descriptor resolves the read (an attached
`NSError` fails it, otherwise the read returns `self.value()` on the freshly stored
native value); a `Disconnected` event fails it with `NotConnected`; a `ServicesChanged`
event listing the owning service fails it with `ServiceChanged`; every other event is
skipped.  Channel exhaustion is the `recv` error.  The second component tracks the
descriptor's native value when the loop returns: a successful update stores the value
delivered by the stack (CoreBluetooth writes `CBDescriptor.value` before firing the
delegate callback); all other paths leave it untouched. -/
def readLoop (d : DescState) (sid : ObjId) :
    List PeripheralEvent → Except Error (List Nat) × Option NSValue
  | [] => (.error recvClosedError, d.nativeValue)
  | ev :: rest =>
    match ev with
    | .descriptorValueUpdate descriptor newValue error =>
      if descriptor = d.descriptorId then
        match error with
        | some e => (.error (fromNSError e), d.nativeValue)
        | none => (DescriptorImpl.value newValue, newValue)
      else
        readLoop d sid rest
    | .disconnected error =>
      (.error ⟨.notConnected, match error with | some e => toString e | none => ""⟩,
       d.nativeValue)
    | .servicesChanged invalidatedServices =>
      if sid ∈ invalidatedServices then (.error ⟨.serviceChanged, ""⟩, d.nativeValue)
      else readLoop d sid rest
    | .descriptorValueWrite _ _ => readLoop d sid rest
    | .otherEvent => readLoop d sid rest

/-- Embedding of `DescriptorImpl::read` (descriptor.rs lines 88-117), paired with the
descriptor's native value when the call returns.  The owning service is looked up with
`expect` (panic when absent), the peripheral state is checked (`NotConnected` when not
connected) before `read_descriptor_value` is issued, and the delegate loop decides the
outcome. -/
def DescriptorImpl.readFull (d : DescState) (events : List PeripheralEvent) :
    RustOutcome (List Nat) × Option NSValue :=
  match d.serviceId with
  | none => (.panicked, d.nativeValue)
  | some sid =>
    if d.peripheralState ≠ .connected then (.err ⟨.notConnected, ""⟩, d.nativeValue)
    else
      match readLoop d sid events with
      | (.ok v, nv) => (.ok v, nv)
      | (.error e, nv) => (.err e, nv)

/-- Result component of `DescriptorImpl::read`. -/
def DescriptorImpl.read (d : DescState) (events : List PeripheralEvent) :
    RustOutcome (List Nat) :=
  (DescriptorImpl.readFull d events).1

/-- Event loop of `DescriptorImpl::write` (descriptor.rs lines 135-153): mirrors the
read loop with `DescriptorValueWrite` as the resolving event. -/
def writeLoop (d : DescState) (sid : ObjId) : List PeripheralEvent → Except Error Unit
  | [] => .error recvClosedError
  | ev :: rest =>
    match ev with
    | .descriptorValueWrite descriptor error =>
      if descriptor = d.descriptorId then
        match error with
        | some e => .error (fromNSError e)
        | none => .ok ()
      else
        writeLoop d sid rest
    | .disconnected error =>
      .error ⟨.notConnected, match error with | some e => toString e | none => ""⟩
    | .servicesChanged invalidatedServices =>
      if sid ∈ invalidatedServices then .error ⟨.serviceChanged, ""⟩
      else writeLoop d sid rest
    | .descriptorValueUpdate _ _ _ => writeLoop d sid rest
    | .otherEvent => writeLoop d sid rest

/-- Embedding of `DescriptorImpl::write` (descriptor.rs lines 120-154).  Unlike `read`,
an absent owning service yields a `NotReady` error rather than a panic; the peripheral
state check and the delegate loop are as in `read`. -/
def DescriptorImpl.write (d : DescState) (events : List PeripheralEvent) :
    RustOutcome Unit :=
  match d.serviceId with
  | none => .err ⟨.notReady, ""⟩
  | some sid =>
    if d.peripheralState ≠ .connected then .err ⟨.notConnected, ""⟩
    else
      match writeLoop d sid events with
      | .ok v => .ok v
      | .error e => .err e

/-- Error kind of a `RustOutcome`, when the outcome is an error. -/
def RustOutcome.errKind {α : Type} : RustOutcome α → Option ErrorKind
  | .err e => some e.kind
  | _ => none

/-! ## Windows characteristic model (`src/windows/characteristic.rs`) -/

/-- Decoded `BitFlags<CharacteristicProperty>` of a GATT characteristic, as produced by
`Characteristic::properties` from the native property word; `notify` corresponds to the
`Notify` flag (bit 0x10) and `indicate` to `Indicate` (bit 0x20). -/
structure CharacteristicProps where
  broadcast : Bool
  canRead : Bool
  writeWithoutResponse : Bool
  canWrite : Bool
  notify : Bool
  indicate : Bool
  authenticatedSignedWrites : Bool
  extendedProperties : Bool
  deriving DecidableEq, Repr

/-- Model of `BluetoothCacheMode`: `cached` serves the value from the OS cache without
peer I/O, `uncached` forces a fresh read from the device. -/
inductive BluetoothCacheMode where
  | cached
  | uncached
  deriving DecidableEq, Repr

/-- Backend outcome table for the WinRT read path: the combined result of
`ReadValueWithCacheModeAsync`, the `check_communication_status` check (defined in
`src/windows/error.rs`, outside the provided sources, hence modelled as the combined
`Except` outcome) and the `DataReader` byte copy, per cache mode. -/
structure WinReadBackend where
  readResult : BluetoothCacheMode → Except Error (List Nat)

/-- Embedding of `Characteristic::read_value` (characteristic.rs lines 78-88): issues
the WinRT read with the given cache mode and returns the copied bytes or the mapped
error. -/
def Characteristic.read_value (b : WinReadBackend) (cachemode : BluetoothCacheMode) :
    Except Error (List Nat) :=
  b.readResult cachemode

/-- Embedding of `Characteristic::value` (characteristic.rs lines 69-71): a cached-mode
read, i.e. the backend performs an implicit read from the OS cache. -/
def Characteristic.value (b : WinReadBackend) : Except Error (List Nat) :=
  Characteristic.read_value b .cached

/-- Embedding of `Characteristic::read` (characteristic.rs lines 74-76): an uncached
read from the device. -/
def Characteristic.read (b : WinReadBackend) : Except Error (List Nat) :=
  Characteristic.read_value b .uncached

/-- Model of `GattClientCharacteristicConfigurationDescriptorValue`: the value written
to the peer's CCCD. -/
inductive CCCDValue where
  | none
  | notify
  | indicate
  deriving DecidableEq, Repr

/-- Observable peer-I/O and bookkeeping effects of the notify lifecycle, in order of
occurrence: registering/removing the `ValueChanged` handler, a CCCD write of a given
value, and a `warn!` log line. -/
inductive NotifyEffect where
  | registerValueChanged
  | writeCCCD (v : CCCDValue)
  | removeValueChanged
  | logWarning
  deriving DecidableEq, Repr

/-- Backend outcome table for one run of `Characteristic::notify` and the disposal of
its stream: whether the `ValueChanged` registration succeeds, the combined outcome of
the CCCD-enable write (call, await and `check_communication_status`), the outcome of
starting the CCCD-disable write (the `WriteClientCharacteristicConfigurationDescriptor-
WithResultAsync(None)` call itself), the combined outcome of awaiting and checking that
write inside the spawned task, and whether `RemoveValueChanged` succeeds. -/
structure NotifyBackend where
  registerOk : Bool
  enableResult : Except Error Unit
  disableStart : Except Error Unit
  disableResult : Except Error Unit
  removeOk : Bool
  deriving Repr

/-- Error produced when the `ValueChanged` registration call fails (mapped through the
windows error `From` impl, outside the provided sources). -/
def registerFailedError : Error := ⟨.other, "ValueChanged registration failed"⟩

/-- Registration and CCCD-enable phase of `Characteristic::notify` once the property
check has picked the CCCD value `v` (characteristic.rs lines 130-163): the
`ValueChanged` handler is registered, the CCCD-enable write is issued, and on its
failure the scope guard removes the handler again (logging a removal failure). -/
def notifySetupAfterCheck (v : CCCDValue) (b : NotifyBackend) :
    Except Error CCCDValue × List NotifyEffect :=
  if !b.registerOk then
    (.error registerFailedError, [.registerValueChanged])
  else
    match b.enableResult with
    | .error e =>
      (.error e,
       [.registerValueChanged, .writeCCCD v, .removeValueChanged]
         ++ if b.removeOk then [] else [.logWarning])
    | .ok _ => (.ok v, [.registerValueChanged, .writeCCCD v])

/-- Embedding of `Characteristic::notify` up to returning the stream (characteristic.rs
lines 116-198): the property check picks the CCCD value (`Notify` preferred over
`Indicate`), failing with `NotSupported` before any I/O when neither flag is present;
then registration and the CCCD-enable write proceed as in `notifySetupAfterCheck`.
Returns the chosen CCCD value on success, paired with the effect trace so far. -/
def notifySetup (props : CharacteristicProps) (b : NotifyBackend) :
    Except Error CCCDValue × List NotifyEffect :=
  if props.notify then
    notifySetupAfterCheck CCCDValue.notify b
  else if props.indicate then
    notifySetupAfterCheck CCCDValue.indicate b
  else
    (.error ⟨.notSupported, "characteristic does not support indications or notifications"⟩,
     [])

/-- How the consumer leaves the notify stream: it may run to completion, stop on an
error item, or be abandoned (dropped early).  The scope guards run on drop in every
case, so the teardown trace does not depend on this value. -/
inductive ExitPath where
  | completed
  | errored
  | abandoned
  deriving DecidableEq, Repr

/-- Teardown trace run when the notify stream is dropped (characteristic.rs lines
152-156 and 165-192): the outer guard attempts the CCCD-disable write (logging a
failure to start it, or a failure reported by the spawned await-and-check task), then
drops the inner guard, which removes the `ValueChanged` handler (logging a removal
failure).  The spawned task runs concurrently with the handler removal; the trace fixes
one interleaving (task log before removal), which no claim depends on. -/
def notifyDispose (b : NotifyBackend) : List NotifyEffect :=
  [.writeCCCD .none]
    ++ (match b.disableStart, b.disableResult with
        | .error _, _ => [.logWarning]
        | .ok _, .error _ => [.logWarning]
        | .ok _, .ok _ => [])
    ++ [.removeValueChanged]
    ++ if b.removeOk then [] else [.logWarning]

/-- Full lifecycle of one `notify()` subscription: setup, consumption ending in the
given exit path, and drop-driven teardown when setup succeeded.  The result is what the
subscriber observes from `notify()` itself; teardown failures are logged, never
returned. -/
def notifyLifecycle (props : CharacteristicProps) (b : NotifyBackend) (_exit : ExitPath) :
    Except Error Unit × List NotifyEffect :=
  match notifySetup props b with
  | (.error e, tr) => (.error e, tr)
  | (.ok _, tr) => (.ok (), tr ++ notifyDispose b)

/-- Predicate picking out a CCCD-enable write (value `Notify` or `Indicate`). -/
def isEnableWrite : NotifyEffect → Bool
  | .writeCCCD .notify => true
  | .writeCCCD .indicate => true
  | _ => false

/-- Predicate picking out the CCCD-disable write (value `None`). -/
def isDisableWrite : NotifyEffect → Bool
  | .writeCCCD .none => true
  | _ => false

/-! ## BlueZ (bluer) adapter model (`src/bluer/adapter.rs`) -/

/-- Service and advertisement identities; `bluest::Uuid` values are modelled as
naturals. -/
abbrev Uuid := Nat

/-- Model of one remote device as the BlueZ daemon knows it: its address, live
connection state, the `UUIDs` device property (service UUIDs known for the device,
`None` when unset — `uuids().await` with `unwrap_or_default`), the service UUIDs
carried in its advertisement data (`adv_data.services`), the UUIDs of its resolved
GATT services (`device.services()`), and its RSSI. -/
structure BluerDevice where
  addr : Nat
  connected : Bool
  uuids : Option (List Uuid)
  advServices : List Uuid
  gattServices : List Uuid
  rssi : Option Int
  deriving DecidableEq, Repr

/-- Model of `bluer::AdapterEvent` and the `Powered` property change relevant to
`events()`; every other property change is collapsed into `otherProperty`. -/
inductive BluerAdapterEvent where
  | deviceAdded (addr : Nat)
  | deviceRemoved (addr : Nat)
  | propertyChangedPowered (powered : Bool)
  | otherProperty
  deriving DecidableEq, Repr

/-- Radio-facing I/O performed through the bluer session, recorded as a trace:
starting/stopping a discovery session, enumerating device addresses, and querying one
device's resolved GATT services. -/
inductive RadioEffect where
  | startDiscovery
  | stopDiscovery
  | queryDeviceAddresses
  | queryDeviceServices (addr : Nat)
  deriving DecidableEq, Repr

/-- Snapshot of the local adapter and the BlueZ daemon state an operation runs
against: the device table, the addresses returned by `device_addresses()`, the live
events an active discovery session will deliver after the known-device replay, the
`Powered` property, and the raw events `inner.events()` will deliver. -/
structure BluerAdapter where
  devices : List BluerDevice
  knownAddrs : List Nat
  discoveryEvents : List BluerAdapterEvent
  powered : Bool
  rawEvents : List BluerAdapterEvent
  deriving DecidableEq, Repr

/-- Device lookup by address in the daemon's device table (`Device::new` plus the
subsequent property queries resolve against this table; an address with no entry
produces no device in the model). -/
def BluerAdapter.findDevice (a : BluerAdapter) (addr : Nat) : Option BluerDevice :=
  a.devices.find? (fun d => d.addr = addr)

/-- Models the bluer crate's `Adapter::discover_devices` (external dependency of this
repository, per its documented semantics): awaiting it starts a discovery session on
the radio immediately, and the returned stream first replays every already-known
device as a `DeviceAdded` event, then forwards live adapter events; the session stops
when the stream is dropped. -/
def bluerDiscoverDevices (a : BluerAdapter) :
    List RadioEffect × List BluerAdapterEvent :=
  ([.startDiscovery], a.knownAddrs.map .deviceAdded ++ a.discoveryEvents)

/-- Per-event body of `AdapterImpl::discover_devices` (adapter.rs lines 183-209): a
`DeviceAdded` event resolves to a device; with an empty filter the device is yielded
directly, otherwise it is yielded exactly when its `UUIDs` property (defaulted to empty
when unset) contains one of the requested services.  Other events are dropped.  The
model elides the D-Bus failure paths of `Device::new` and `uuids()` (their `Err` arms
forward the error). -/
def discoverFilter (a : BluerAdapter) (services : List Uuid) (ev : BluerAdapterEvent) :
    Option (Except Error BluerDevice) :=
  match ev with
  | .deviceAdded addr =>
    match a.findDevice addr with
    | none => none
    | some device =>
      if services.isEmpty then some (.ok device)
      else
        let uuids := device.uuids.getD []
        if services.any (fun x => x ∈ uuids) then some (.ok device) else none
  | .deviceRemoved _ => none
  | .propertyChangedPowered _ => none
  | .otherProperty => none

/-- Embedding of `AdapterImpl::discover_devices` (adapter.rs lines 179-210): awaits the
bluer discovery stream (which starts the discovery session) and filters its events. -/
def AdapterImpl.discover_devices (a : BluerAdapter) (services : List Uuid) :
    List RadioEffect × List (Except Error BluerDevice) :=
  ((bluerDiscoverDevices a).1,
   (bluerDiscoverDevices a).2.filterMap (discoverFilter a services))

/-- One run of `discover_devices` in which the consumer reads `n` items and then drops
the stream: the items consumed, and the radio effects over the whole run (the
discovery-session start at await time, and its stop when the stream is dropped). -/
def discoverDevicesRun (a : BluerAdapter) (services : List Uuid) (n : Nat) :
    List (Except Error BluerDevice) × List RadioEffect :=
  ((AdapterImpl.discover_devices a services).2.take n,
   (AdapterImpl.discover_devices a services).1 ++ [.stopDiscovery])

/-- Model of `AdvertisingDevice`: the device handle, the advertisement's service UUID
list (the only part of `adv_data` the scan filter touches), and the RSSI. -/
structure AdvertisingDevice where
  device : BluerDevice
  advServices : List Uuid
  rssi : Option Int
  deriving DecidableEq, Repr

/-- Per-event body of `AdapterImpl::scan` (adapter.rs lines 151-167): a `DeviceAdded`
event resolves to a device; an advertisement is produced only when the device is not
currently connected, carrying the device's advertisement data and RSSI.  Other events
are dropped. -/
def scanMap (a : BluerAdapter) (ev : BluerAdapterEvent) : Option AdvertisingDevice :=
  match ev with
  | .deviceAdded addr =>
    match a.findDevice addr with
    | none => none
    | some device =>
      if device.connected then none
      else some ⟨device, device.advServices, device.rssi⟩
  | .deviceRemoved _ => none
  | .propertyChangedPowered _ => none
  | .otherProperty => none

/-- Filter step of `AdapterImpl::scan` (adapter.rs lines 168-170): keep the
advertisement when the service filter is empty or its advertised UUID list intersects
the filter. -/
def scanKeep (services : List Uuid) (x : AdvertisingDevice) : Bool :=
  services.isEmpty || x.advServices.any (fun y => y ∈ services)

/-- Embedding of `AdapterImpl::scan` (adapter.rs lines 146-171): the bluer discovery
stream mapped to advertisements of not-currently-connected devices, filtered on the
advertised service UUIDs. -/
def AdapterImpl.scan (a : BluerAdapter) (services : List Uuid) :
    List RadioEffect × List AdvertisingDevice :=
  ((bluerDiscoverDevices a).1,
   ((bluerDiscoverDevices a).2.filterMap (scanMap a)).filter (scanKeep services))

/-- The adapter availability events surfaced by `AdapterImpl::events`. -/
inductive AdapterEvent where
  | available
  | unavailable
  deriving DecidableEq, Repr

/-- Filter body of `AdapterImpl::events` (adapter.rs lines 60-70): a `Powered(true)`
property change becomes `Ok(Available)`, `Powered(false)` becomes `Ok(Unavailable)`,
and every other event is dropped — the stream never constructs an `Err` item. -/
def adapterEventFilter : BluerAdapterEvent → Option (Except Error AdapterEvent)
  | .propertyChangedPowered true => some (.ok .available)
  | .propertyChangedPowered false => some (.ok .unavailable)
  | .deviceAdded _ => none
  | .deviceRemoved _ => none
  | .otherProperty => none

/-- Embedding of `AdapterImpl::events` (adapter.rs lines 58-71): the raw bluer adapter
event stream filtered to availability transitions. -/
def AdapterImpl.events (a : BluerAdapter) : List (Except Error AdapterEvent) :=
  a.rawEvents.filterMap adapterEventFilter

/-- Loop of `AdapterImpl::wait_available` over the subscribed event stream
(adapter.rs lines 77-88): `skip_while` drops `Ok` items that are not `Available`, so
the first remaining item is either `Ok(Available)` (success, via the inner `?`) or an
`Err` (propagated); an exhausted stream is the `Internal` error. -/
def waitLoop : List (Except Error AdapterEvent) → Except Error Unit
  | [] => .error ⟨.internal, "adapter event stream closed unexpectedly"⟩
  | .ok .available :: _ => .ok ()
  | .ok .unavailable :: rest => waitLoop rest
  | .error e :: _ => .error e

/-- Embedding of `AdapterImpl::wait_available` (adapter.rs lines 74-91): the `events()`
future is created but only awaited when `is_powered` is false; an already-powered
adapter returns `Ok(())` at once.  The boolean records whether the event stream was
subscribed (the future awaited). -/
def AdapterImpl.wait_available (a : BluerAdapter) : Except Error Unit × Bool :=
  if a.powered then (.ok (), false)
  else (waitLoop (AdapterImpl.events a), true)

/-- Embedding of `AdapterImpl::connected_devices` (adapter.rs lines 99-114): enumerate
`device_addresses()`, resolve each to a device, and keep the connected ones; paired
with the radio I/O performed. -/
def AdapterImpl.connected_devices (a : BluerAdapter) :
    List BluerDevice × List RadioEffect :=
  ((a.knownAddrs.filterMap a.findDevice).filter (fun d => d.connected),
   [.queryDeviceAddresses])

/-- Embedding of `AdapterImpl::connected_devices_with_services` (adapter.rs lines
121-136): `assert!(!services.is_empty())` panics before any I/O on an empty filter;
otherwise each connected device's resolved GATT services are queried and the device is
kept when one of its service UUIDs is in `services` (the inner loop's `break` makes
this a per-device membership test).  The model elides the D-Bus failure paths of
`services()` and `uuid()` (their `?` forwards the error). -/
def AdapterImpl.connected_devices_with_services (a : BluerAdapter)
    (services : List Uuid) : RustOutcome (List BluerDevice) × List RadioEffect :=
  if services.isEmpty then (.panicked, [])
  else
    (.ok ((AdapterImpl.connected_devices a).1.filter
        (fun d => d.gattServices.any (fun u => u ∈ services))),
     (AdapterImpl.connected_devices a).2
       ++ (AdapterImpl.connected_devices a).1.map (fun d => .queryDeviceServices d.addr))

/-! ## Events a read/write loop skips without deciding the operation -/

/-- Events the `DescriptorImpl::read` loop skips: updates for other descriptors, write
completions, service invalidations not listing the owning service, and unrelated
events. -/
def nonDecidingRead (d : DescState) (sid : ObjId) : PeripheralEvent → Bool
  | .descriptorValueUpdate descriptor _ _ => decide (descriptor ≠ d.descriptorId)
  | .descriptorValueWrite _ _ => true
  | .disconnected _ => false
  | .servicesChanged invalidatedServices => decide (sid ∉ invalidatedServices)
  | .otherEvent => true

/-- Events the `DescriptorImpl::write` loop skips: value updates, write completions for
other descriptors, service invalidations not listing the owning service, and unrelated
events. -/
def nonDecidingWrite (d : DescState) (sid : ObjId) : PeripheralEvent → Bool
  | .descriptorValueUpdate _ _ _ => true
  | .descriptorValueWrite descriptor _ => decide (descriptor ≠ d.descriptorId)
  | .disconnected _ => false
  | .servicesChanged invalidatedServices => decide (sid ∉ invalidatedServices)
  | .otherEvent => true

/-! ## Concrete example inputs used by witnesses and counterexample evaluations -/

/-- Example device: connected, known to expose service UUID 42. -/
def exDevice : BluerDevice := ⟨1, true, some [42], [], [42], none⟩

/-- Example adapter whose daemon knows exactly `exDevice`. -/
def exAdapter : BluerAdapter := ⟨[exDevice], [1], [], true, []⟩

/-- Example advertising (not connected) device, advertising service UUID 42. -/
def exScanDevice : BluerDevice := ⟨10, false, none, [42], [], some (-40)⟩

/-- Example adapter whose daemon knows exactly `exScanDevice`. -/
def exScanAdapter : BluerAdapter := ⟨[exScanDevice], [10], [], true, []⟩

/-- Example unpowered adapter whose raw event stream eventually powers on. -/
def exWaitAdapter : BluerAdapter :=
  ⟨[], [], [], false,
   [.otherProperty, .propertyChangedPowered false, .propertyChangedPowered true]⟩

/-- Example unpowered adapter whose raw event stream ends without powering on. -/
def exClosedAdapter : BluerAdapter :=
  ⟨[], [], [], false, [.propertyChangedPowered false, .deviceAdded 3]⟩

/-- Example characteristic properties without `Notify` or `Indicate` (read-only). -/
def exPropsNoNotify : CharacteristicProps :=
  ⟨false, true, false, false, false, false, false, false⟩

/-- Example characteristic properties with `Notify` set. -/
def exPropsNotify : CharacteristicProps :=
  ⟨false, true, false, false, true, false, false, false⟩

/-- Example notify backend in which every native call succeeds. -/
def exBackendOk : NotifyBackend := ⟨true, .ok (), .ok (), .ok (), true⟩

/-- Example notify backend in which the CCCD-disable write fails. -/
def exBackendDisableFail : NotifyBackend :=
  ⟨true, .ok (), .ok (), .error ⟨.other, "disable failed"⟩, true⟩

/-- Example descriptor state: descriptor 3 on service 7, connected, value unread. -/
def exDescState : DescState := ⟨3, some 7, .connected, none⟩

/-- Example descriptor state whose peripheral is disconnected. -/
def exDescDisconnected : DescState := ⟨3, some 7, .disconnected, none⟩

/-! ## Helper lemmas -/

deriving instance DecidableEq for Except

/-- The read loop ignores any prefix of non-deciding events. -/
theorem readLoop_skip (d : DescState) (sid : ObjId) (pre rest : List PeripheralEvent)
    (h : ∀ ev ∈ pre, nonDecidingRead d sid ev = true) :
    readLoop d sid (pre ++ rest) = readLoop d sid rest := by
  induction pre with
  | nil => rfl
  | cons ev pre ih =>
    have hev := h ev (List.mem_cons_self ev pre)
    have hpre : ∀ e ∈ pre, nonDecidingRead d sid e = true :=
      fun e he => h e (List.mem_cons_of_mem ev he)
    cases ev with
    | descriptorValueUpdate descriptor newValue error =>
      have hd : ¬descriptor = d.descriptorId := by
        simpa [nonDecidingRead] using hev
      simpa [readLoop, hd] using ih hpre
    | descriptorValueWrite descriptor error =>
      simpa [readLoop] using ih hpre
    | disconnected error => simp [nonDecidingRead] at hev
    | servicesChanged invalidatedServices =>
      have hs : sid ∉ invalidatedServices := by
        simpa [nonDecidingRead] using hev
      simpa [readLoop, hs] using ih hpre
    | otherEvent => simpa [readLoop] using ih hpre

/-- The write loop ignores any prefix of non-deciding events. -/
theorem writeLoop_skip (d : DescState) (sid : ObjId) (pre rest : List PeripheralEvent)
    (h : ∀ ev ∈ pre, nonDecidingWrite d sid ev = true) :
    writeLoop d sid (pre ++ rest) = writeLoop d sid rest := by
  induction pre with
  | nil => rfl
  | cons ev pre ih =>
    have hev := h ev (List.mem_cons_self ev pre)
    have hpre : ∀ e ∈ pre, nonDecidingWrite d sid e = true :=
      fun e he => h e (List.mem_cons_of_mem ev he)
    cases ev with
    | descriptorValueUpdate descriptor newValue error =>
      simpa [writeLoop] using ih hpre
    | descriptorValueWrite descriptor error =>
      have hd : ¬descriptor = d.descriptorId := by
        simpa [nonDecidingWrite] using hev
      simpa [writeLoop, hd] using ih hpre
    | disconnected error => simp [nonDecidingWrite] at hev
    | servicesChanged invalidatedServices =>
      have hs : sid ∉ invalidatedServices := by
        simpa [nonDecidingWrite] using hev
      simpa [writeLoop, hs] using ih hpre
    | otherEvent => simpa [writeLoop] using ih hpre

/-- A read that resolves successfully did so through `DescriptorImpl.value` on the
native value it reports, so re-reading that value reproduces the same bytes. -/
theorem readLoop_ok_value (d : DescState) (sid : ObjId) :
    ∀ events bytes nv, readLoop d sid events = (.ok bytes, nv) →
      DescriptorImpl.value nv = .ok bytes := by
  intro events
  induction events with
  | nil =>
    intro bytes nv h
    simp [readLoop, recvClosedError] at h
  | cons ev rest ih =>
    intro bytes nv h
    cases ev with
    | descriptorValueUpdate descriptor newValue error =>
      simp only [readLoop] at h
      split at h
      · cases error with
        | some e => simp at h
        | none =>
          simp only [Prod.mk.injEq] at h
          obtain ⟨h1, h2⟩ := h
          rw [← h2]
          exact h1
      · exact ih bytes nv h
    | descriptorValueWrite descriptor error =>
      simp only [readLoop] at h
      exact ih bytes nv h
    | disconnected error => simp [readLoop] at h
    | servicesChanged invalidatedServices =>
      simp only [readLoop] at h
      split at h
      · simp at h
      · exact ih bytes nv h
    | otherEvent =>
      simp only [readLoop] at h
      exact ih bytes nv h

/-- Every item of the filtered adapter event stream is an `Ok` availability
transition: the filter never constructs an `Err`. -/
theorem events_shape (a : BluerAdapter) :
    ∀ ev ∈ AdapterImpl.events a,
      ev = .ok AdapterEvent.available ∨ ev = .ok AdapterEvent.unavailable := by
  intro ev hev
  rw [AdapterImpl.events, List.mem_filterMap] at hev
  obtain ⟨raw, _, hraw⟩ := hev
  cases raw with
  | propertyChangedPowered powered =>
    cases powered with
    | true => left; simpa [adapterEventFilter] using hraw.symm
    | false => right; simpa [adapterEventFilter] using hraw.symm
  | deviceAdded addr => simp [adapterEventFilter] at hraw
  | deviceRemoved addr => simp [adapterEventFilter] at hraw
  | otherProperty => simp [adapterEventFilter] at hraw

/-- The wait loop skips a prefix of `Ok(Unavailable)` items and succeeds on the first
`Ok(Available)`. -/
theorem waitLoop_first_available (pre rest : List (Except Error AdapterEvent))
    (h : ∀ ev ∈ pre, ev = .ok AdapterEvent.unavailable) :
    waitLoop (pre ++ .ok AdapterEvent.available :: rest) = .ok () := by
  induction pre with
  | nil => rfl
  | cons ev pre ih =>
    have hev := h ev (List.mem_cons_self ev pre)
    subst hev
    exact ih fun e he => h e (List.mem_cons_of_mem _ he)

/-- The wait loop on a stream of availability transitions that never contains
`Ok(Available)` reaches the end of the stream and fails with the `Internal` error. -/
theorem waitLoop_no_available (l : List (Except Error AdapterEvent))
    (hshape : ∀ ev ∈ l,
      ev = .ok AdapterEvent.available ∨ ev = .ok AdapterEvent.unavailable)
    (h : Except.ok AdapterEvent.available ∉ l) :
    waitLoop l = .error ⟨.internal, "adapter event stream closed unexpectedly"⟩ := by
  induction l with
  | nil => rfl
  | cons ev rest ih =>
    rcases hshape ev (List.mem_cons_self ev rest) with hev | hev
    · exact absurd (hev ▸ List.mem_cons_self ev rest) h
    · subst hev
      exact ih (fun e he => hshape e (List.mem_cons_of_mem _ he))
        (fun hmem => h (List.mem_cons_of_mem _ hmem))

/-- An advertisement produced by the scan mapping step always comes from a device that
is not currently connected. -/
theorem scanMap_not_connected (a : BluerAdapter) (ev : BluerAdapterEvent)
    (x : AdvertisingDevice) (h : scanMap a ev = some x) :
    x.device.connected = false := by
  cases ev with
  | deviceAdded addr =>
    simp only [scanMap] at h
    split at h
    · simp at h
    · rename_i device heq
      split at h
      · simp at h
      · rename_i hc
        simp only [Option.some.injEq] at h
        subst h
        simpa using hc
  | deviceRemoved addr => simp [scanMap] at h
  | propertyChangedPowered powered => simp [scanMap] at h
  | otherProperty => simp [scanMap] at h

/-- Teardown trace facts: the disposal performs no enable write, performs exactly one
disable write which is its first effect, and logs (never raises) a disable failure. -/
theorem notifyDispose_spec (b : NotifyBackend) :
    (notifyDispose b).countP isEnableWrite = 0 ∧
    (notifyDispose b).countP isDisableWrite = 1 ∧
    (notifyDispose b).take 1 = [.writeCCCD CCCDValue.none] ∧
    ((b.disableStart = .ok () → b.disableResult ≠ .ok () →
        NotifyEffect.logWarning ∈ notifyDispose b) ∧
     (b.disableStart ≠ .ok () → NotifyEffect.logWarning ∈ notifyDispose b)) := by
  rcases hds : b.disableStart with e | u <;>
    rcases hdr : b.disableResult with e' | u' <;>
      rcases hrm : b.removeOk with _ | _ <;>
        simp [notifyDispose, hds, hdr, hrm, isEnableWrite, isDisableWrite,
          List.countP_cons, List.countP_nil]

/-- Lifecycle facts once the setup phase is known to have succeeded with CCCD value
`v`: subscriber result `Ok`, one enable then one disable write, exit-path-independent
teardown, and logged-not-raised disable failures. -/
theorem notifyLifecycle_of_setup (props : CharacteristicProps) (b : NotifyBackend)
    (exit : ExitPath) (v : CCCDValue) (hv : v = .notify ∨ v = .indicate)
    (hset : notifySetup props b = (.ok v, [.registerValueChanged, .writeCCCD v])) :
    (notifyLifecycle props b exit).1 = .ok () ∧
    (notifyLifecycle props b exit).2.countP isEnableWrite = 1 ∧
    (notifyLifecycle props b exit).2.countP isDisableWrite = 1 ∧
    (∃ w, isEnableWrite (.writeCCCD w) = true ∧
      (notifyLifecycle props b exit).2.take 3 =
        [.registerValueChanged, .writeCCCD w, .writeCCCD CCCDValue.none]) ∧
    (∀ e1 e2 : ExitPath,
      (notifyLifecycle props b e1).2 = (notifyLifecycle props b e2).2) ∧
    ((b.disableStart = .ok () → b.disableResult ≠ .ok () →
        NotifyEffect.logWarning ∈ (notifyLifecycle props b exit).2) ∧
     (b.disableStart ≠ .ok () →
        NotifyEffect.logWarning ∈ (notifyLifecycle props b exit).2)) := by
  have hlc : ∀ e : ExitPath, notifyLifecycle props b e =
      (.ok (), [.registerValueChanged, .writeCCCD v] ++ notifyDispose b) := by
    intro e
    simp [notifyLifecycle, hset]
  obtain ⟨hd0, hd1, hdtake, hdlog1, hdlog2⟩ := notifyDispose_spec b
  have hve : isEnableWrite (.writeCCCD v) = true := by
    rcases hv with h | h <;> subst h <;> rfl
  have hvd : isDisableWrite (.writeCCCD v) = false := by
    rcases hv with h | h <;> subst h <;> rfl
  refine ⟨by rw [hlc], ?_, ?_, ?_, fun e1 e2 => by rw [hlc, hlc], ?_, ?_⟩
  · rw [hlc, List.countP_append, hd0]
    have h1 : isEnableWrite .registerValueChanged = false := rfl
    simp [List.countP_cons, List.countP_nil, hve, h1]
  · rw [hlc, List.countP_append, hd1]
    have h1 : isDisableWrite .registerValueChanged = false := rfl
    simp [List.countP_cons, List.countP_nil, hvd, h1]
  · refine ⟨v, hve, ?_⟩
    rw [hlc, List.take_append_eq_append_take]
    simp [hdtake]
  · intro h1 h2
    rw [hlc]
    exact List.mem_append_right _ (hdlog1 h1 h2)
  · intro h1
    rw [hlc]
    exact List.mem_append_right _ (hdlog2 h1)

/-! ## Claim theorems -/

/-- C1: calling `notify()` on a characteristic whose property bitset contains neither
`Notify` nor `Indicate` fails with a `NotSupported` error and performs no peer I/O:
the effect trace is empty, so no CCCD write is issued and no value-changed handler is
registered. -/
theorem notify_unsupported_fails_without_io (props : CharacteristicProps)
    (b : NotifyBackend) (hn : props.notify = false) (hi : props.indicate = false) :
    notifySetup props b =
      (.error ⟨.notSupported,
        "characteristic does not support indications or notifications"⟩, []) := by
  simp [notifySetup, hn, hi]

/-- Witness for C1 at a concrete read-only characteristic and an all-succeeding
backend. -/
theorem notify_unsupported_fails_without_io_witness :
    exPropsNoNotify.notify = false ∧ exPropsNoNotify.indicate = false ∧
    notifySetup exPropsNoNotify exBackendOk =
      (.error ⟨.notSupported,
        "characteristic does not support indications or notifications"⟩, []) :=
  ⟨rfl, rfl, notify_unsupported_fails_without_io exPropsNoNotify exBackendOk rfl rfl⟩

/-- C2: for a characteristic supporting `Notify` or `Indicate`, a `notify()` call
whose CCCD-enable write succeeds, followed by disposal of the returned stream,
produces exactly one CCCD-enable write followed by exactly one CCCD-disable write
(first three effects: handler registration, enable write, disable write), even if no
notification was ever delivered; the teardown trace is identical on every exit path
of the stream, and a failure of the disable write (either failing to start it or a
failure reported by the spawned task) adds a log entry while the subscriber-visible
result stays `Ok`. -/
theorem notify_single_enable_then_disable (props : CharacteristicProps)
    (b : NotifyBackend) (exit : ExitPath)
    (hsupp : props.notify = true ∨ props.indicate = true)
    (hreg : b.registerOk = true) (hen : b.enableResult = .ok ()) :
    (notifyLifecycle props b exit).1 = .ok () ∧
    (notifyLifecycle props b exit).2.countP isEnableWrite = 1 ∧
    (notifyLifecycle props b exit).2.countP isDisableWrite = 1 ∧
    (∃ w, isEnableWrite (.writeCCCD w) = true ∧
      (notifyLifecycle props b exit).2.take 3 =
        [.registerValueChanged, .writeCCCD w, .writeCCCD CCCDValue.none]) ∧
    (∀ e1 e2 : ExitPath,
      (notifyLifecycle props b e1).2 = (notifyLifecycle props b e2).2) ∧
    ((b.disableStart = .ok () → b.disableResult ≠ .ok () →
        NotifyEffect.logWarning ∈ (notifyLifecycle props b exit).2) ∧
     (b.disableStart ≠ .ok () →
        NotifyEffect.logWarning ∈ (notifyLifecycle props b exit).2)) := by
  cases hn : props.notify with
  | true =>
    refine notifyLifecycle_of_setup props b exit .notify (Or.inl rfl) ?_
    simp [notifySetup, notifySetupAfterCheck, hn, hreg, hen]
  | false =>
    have hi : props.indicate = true := by
      rcases hsupp with h | h
      · rw [hn] at h; exact absurd h (by simp)
      · exact h
    refine notifyLifecycle_of_setup props b exit .indicate (Or.inr rfl) ?_
    simp [notifySetup, notifySetupAfterCheck, hn, hi, hreg, hen]

/-- Witness for C2 at a concrete notifiable characteristic with a backend whose
disable write fails: result `Ok`, one enable and one disable write, and the failure is
logged. -/
theorem notify_single_enable_then_disable_witness :
    (notifyLifecycle exPropsNotify exBackendDisableFail .abandoned).1 = .ok () ∧
    (notifyLifecycle exPropsNotify exBackendDisableFail .abandoned).2.countP
      isEnableWrite = 1 ∧
    (notifyLifecycle exPropsNotify exBackendDisableFail .abandoned).2.countP
      isDisableWrite = 1 ∧
    NotifyEffect.logWarning ∈
      (notifyLifecycle exPropsNotify exBackendDisableFail .abandoned).2 :=
  ⟨(notify_single_enable_then_disable exPropsNotify exBackendDisableFail .abandoned
      (Or.inl rfl) rfl rfl).1,
   (notify_single_enable_then_disable exPropsNotify exBackendDisableFail .abandoned
      (Or.inl rfl) rfl rfl).2.1,
   (notify_single_enable_then_disable exPropsNotify exBackendDisableFail .abandoned
      (Or.inl rfl) rfl rfl).2.2.1,
   (notify_single_enable_then_disable exPropsNotify exBackendDisableFail .abandoned
      (Or.inl rfl) rfl rfl).2.2.2.2.2.1 rfl (by decide)⟩

/-- C3: descriptor `read()` and `write()` fail with `NotConnected` whenever the owning
peripheral is not in the connected state — both via the up-front state check and when a
disconnection event arrives while the operation is in flight — and fail with
`ServiceChanged` when a service-invalidation event naming the owning service arrives on
the same delegate event channel the operation is consuming (the loop decides on the
first such event after any number of unrelated events). -/
theorem descriptor_read_write_connection_errors (d : DescState) (sid : ObjId)
    (hs : d.serviceId = some sid) :
    (d.peripheralState ≠ .connected →
      ∀ events, (DescriptorImpl.read d events).errKind = some .notConnected ∧
        (DescriptorImpl.write d events).errKind = some .notConnected) ∧
    (d.peripheralState = .connected →
      ∀ pre rest,
        (∀ ev ∈ pre,
          nonDecidingRead d sid ev = true ∧ nonDecidingWrite d sid ev = true) →
        (∀ e, (DescriptorImpl.read d (pre ++ .disconnected e :: rest)).errKind =
                some .notConnected ∧
              (DescriptorImpl.write d (pre ++ .disconnected e :: rest)).errKind =
                some .notConnected) ∧
        (∀ inv, sid ∈ inv →
          (DescriptorImpl.read d (pre ++ .servicesChanged inv :: rest)).errKind =
            some .serviceChanged ∧
          (DescriptorImpl.write d (pre ++ .servicesChanged inv :: rest)).errKind =
            some .serviceChanged)) := by
  constructor
  · intro hc events
    constructor
    · simp [DescriptorImpl.read, DescriptorImpl.readFull, hs, hc, RustOutcome.errKind]
    · simp [DescriptorImpl.write, hs, hc, RustOutcome.errKind]
  · intro hcon pre rest hpre
    constructor
    · intro e
      constructor
      · simp only [DescriptorImpl.read, DescriptorImpl.readFull, hs, hcon, ne_eq,
          not_true_eq_false, if_false]
        rw [readLoop_skip d sid pre _ (fun ev h => (hpre ev h).1)]
        simp [readLoop, RustOutcome.errKind]
      · simp only [DescriptorImpl.write, hs, hcon, ne_eq, not_true_eq_false, if_false]
        rw [writeLoop_skip d sid pre _ (fun ev h => (hpre ev h).2)]
        simp [writeLoop, RustOutcome.errKind]
    · intro inv hin
      constructor
      · simp only [DescriptorImpl.read, DescriptorImpl.readFull, hs, hcon, ne_eq,
          not_true_eq_false, if_false]
        rw [readLoop_skip d sid pre _ (fun ev h => (hpre ev h).1)]
        simp [readLoop, hin, RustOutcome.errKind]
      · simp only [DescriptorImpl.write, hs, hcon, ne_eq, not_true_eq_false, if_false]
        rw [writeLoop_skip d sid pre _ (fun ev h => (hpre ev h).2)]
        simp [writeLoop, hin, RustOutcome.errKind]

/-- Witness for C3: a disconnected peripheral fails a read up front; a connected one
fails a read on an in-flight disconnection and a write on an in-flight invalidation of
its owning service, each after an unrelated event was skipped. -/
theorem descriptor_read_write_connection_errors_witness :
    (DescriptorImpl.read exDescDisconnected []).errKind = some .notConnected ∧
    (DescriptorImpl.read exDescState
        ([.otherEvent] ++ .disconnected none :: [])).errKind = some .notConnected ∧
    (DescriptorImpl.write exDescState
        ([.otherEvent] ++ .servicesChanged [7] :: [])).errKind = some .serviceChanged :=
  ⟨((descriptor_read_write_connection_errors exDescDisconnected 7 rfl).1
      (by decide) []).1,
   (((descriptor_read_write_connection_errors exDescState 7 rfl).2 rfl [.otherEvent] []
      (by decide)).1 none).1,
   (((descriptor_read_write_connection_errors exDescState 7 rfl).2 rfl [.otherEvent] []
      (by decide)).2 [7] (by decide)).2⟩

/-- C9: reading the cached value of a CoreBluetooth descriptor before any read has
populated it fails with `NotReady` rather than fabricating a value; after a successful
`read()`, `value()` on the resulting native value returns the same bytes (and `value`
consumes no peripheral events, i.e. no further peer I/O); the Windows characteristic
backend takes the claim's implicit-read branch: its `value()` is exactly a cached-mode
read. -/
theorem cached_value_discipline :
    (DescriptorImpl.value none =
      .error ⟨.notReady, "the descriptor value has not been read"⟩) ∧
    (∀ d events bytes nv, DescriptorImpl.readFull d events = (.ok bytes, nv) →
      DescriptorImpl.value nv = .ok bytes) ∧
    (∀ b, Characteristic.value b = Characteristic.read_value b .cached) := by
  refine ⟨rfl, ?_, fun b => rfl⟩
  intro d events bytes nv h
  simp only [DescriptorImpl.readFull] at h
  split at h
  · simp at h
  · rename_i sid hsid
    split at h
    · simp at h
    · split at h
      · rename_i v nv2 heq
        simp only [Prod.mk.injEq, RustOutcome.ok.injEq] at h
        obtain ⟨h1, h2⟩ := h
        rw [← h2, ← h1]
        exact readLoop_ok_value d sid events v nv2 heq
      · simp at h

/-- Witness for C9: a successful read of descriptor 3 (delivering bytes `[1, 2]` as an
`NSData`) populates the native value, and `value()` then returns the same bytes. -/
theorem cached_value_discipline_witness :
    DescriptorImpl.readFull exDescState
        [.descriptorValueUpdate 3 (some (.data (some [1, 2]))) none] =
      (.ok [1, 2], some (.data (some [1, 2]))) ∧
    DescriptorImpl.value (some (.data (some [1, 2]))) = .ok [1, 2] :=
  ⟨rfl,
   cached_value_discipline.2.1 exDescState
     [.descriptorValueUpdate 3 (some (.data (some [1, 2]))) none] [1, 2]
     (some (.data (some [1, 2]))) rfl⟩

/-- C10: a descriptor whose native value object is present but is neither an
`NSNumber`, `NSString` nor `NSData` — or whose string/data byte pointer is null —
yields `Ok` with an empty byte vector from `value()` rather than an error; only a
completely absent native value yields the `NotReady` error. -/
theorem descriptor_unrecognized_value_yields_empty (v : NSValue)
    (h : v = .otherObject ∨ v = .string none ∨ v = .data none) :
    DescriptorImpl.value (some v) = .ok [] ∧
    DescriptorImpl.value none =
      .error ⟨.notReady, "the descriptor value has not been read"⟩ := by
  rcases h with h | h | h <;> subst h <;> exact ⟨rfl, rfl⟩

/-- Witness for C10 at a native value of an unrecognized object class. -/
theorem descriptor_unrecognized_value_yields_empty_witness :
    DescriptorImpl.value (some NSValue.otherObject) = .ok [] ∧
    DescriptorImpl.value none =
      .error ⟨.notReady, "the descriptor value has not been read"⟩ :=
  descriptor_unrecognized_value_yields_empty NSValue.otherObject (Or.inl rfl)

/-- C4: evaluation of `discover_devices([42])` on an adapter with exactly one
already-connected matching device, the consumer abandoning the stream after the first
item: the single device is indeed the only item consumed, but the radio discovery
session is started when `discover_devices()` is awaited — `startDiscovery` is in the
effect trace even though the consumer never read past the connected-device snapshot.
This contradicts the claim (and the function's own doc comment, adapter.rs lines
175-178): the bluer implementation awaits `inner.discover_devices()`, which starts the
scan, before any item is consumed. -/
theorem discover_devices_eager_scan_eval :
    (discoverDevicesRun exAdapter [42] 1).1 = [.ok exDevice] ∧
    (discoverDevicesRun exAdapter [42] 1).2 =
      [RadioEffect.startDiscovery, RadioEffect.stopDiscovery] ∧
    RadioEffect.startDiscovery ∈ (discoverDevicesRun exAdapter [42] 1).2 := by
  refine ⟨rfl, rfl, ?_⟩
  decide

/-- C5: every advertisement yielded by `scan(services)` comes from a device that is
not currently connected, and an advertisement produced from a discovery event is
yielded iff the service filter is empty or the advertisement's parsed service-UUID set
(the `adv_data.services` field, not a live GATT read) intersects `services`. -/
theorem scan_yields_unconnected_matching (a : BluerAdapter) (services : List Uuid) :
    (∀ x ∈ (AdapterImpl.scan a services).2,
      x.device.connected = false ∧
      (services ≠ [] → ∃ u ∈ x.advServices, u ∈ services)) ∧
    (∀ ev ∈ (bluerDiscoverDevices a).2, ∀ x, scanMap a ev = some x →
      (x ∈ (AdapterImpl.scan a services).2 ↔
        (services = [] ∨ ∃ u ∈ x.advServices, u ∈ services))) := by
  constructor
  · intro x hx
    simp only [AdapterImpl.scan] at hx
    obtain ⟨hmem, hkeep⟩ := List.mem_filter.mp hx
    obtain ⟨ev, hev, hevx⟩ := List.mem_filterMap.mp hmem
    refine ⟨scanMap_not_connected a ev x hevx, ?_⟩
    intro hne
    cases services with
    | nil => exact absurd rfl hne
    | cons s ss =>
      simpa [scanKeep, List.any_eq_true] using hkeep
  · intro ev hev x hx
    have hxin : x ∈ (bluerDiscoverDevices a).2.filterMap (scanMap a) :=
      List.mem_filterMap.mpr ⟨ev, hev, hx⟩
    simp only [AdapterImpl.scan]
    constructor
    · intro hmem
      have hkeep := (List.mem_filter.mp hmem).2
      cases services with
      | nil => exact Or.inl rfl
      | cons s ss =>
        exact Or.inr (by simpa [scanKeep, List.any_eq_true] using hkeep)
    · intro hor
      refine List.mem_filter.mpr ⟨hxin, ?_⟩
      rcases hor with h | h
      · subst h; rfl
      · cases services with
        | nil => rfl
        | cons s ss => simpa [scanKeep, List.any_eq_true] using h

/-- Witness for C5: on an adapter knowing one unconnected device advertising service
42, `scan([42])` yields that advertisement. -/
theorem scan_yields_unconnected_matching_witness :
    scanMap exScanAdapter (.deviceAdded 10) = some ⟨exScanDevice, [42], some (-40)⟩ ∧
    (⟨exScanDevice, [42], some (-40)⟩ : AdvertisingDevice) ∈
      (AdapterImpl.scan exScanAdapter [42]).2 :=
  ⟨rfl,
   ((scan_yields_unconnected_matching exScanAdapter [42]).2
      (BluerAdapterEvent.deviceAdded 10) (by decide)
      ⟨exScanDevice, [42], some (-40)⟩ rfl).mpr
    (Or.inr ⟨42, by decide, by decide⟩)⟩

/-- C6: `wait_available()` on an already-powered adapter returns `Ok` at once without
subscribing to the event stream (the subscription flag stays `false`); on an unpowered
adapter it subscribes to `events()` and resolves `Ok` on the first `Available`
transition of the stream. -/
theorem wait_available_subscription_discipline (a : BluerAdapter) :
    (a.powered = true → AdapterImpl.wait_available a = (.ok (), false)) ∧
    (a.powered = false →
      (AdapterImpl.wait_available a).2 = true ∧
      ∀ pre rest, AdapterImpl.events a = pre ++ .ok AdapterEvent.available :: rest →
        (∀ ev ∈ pre, ev = .ok AdapterEvent.unavailable) →
        (AdapterImpl.wait_available a).1 = .ok ()) := by
  constructor
  · intro hp
    simp [AdapterImpl.wait_available, hp]
  · intro hp
    constructor
    · simp [AdapterImpl.wait_available, hp]
    · intro pre rest hev hpre
      simp only [AdapterImpl.wait_available, hp, Bool.false_eq_true, if_false]
      rw [hev]
      exact waitLoop_first_available pre rest hpre

/-- Witness for C6: a powered adapter returns without subscribing; an unpowered one
subscribes and resolves on the `Available` transition after one `Unavailable`. -/
theorem wait_available_subscription_discipline_witness :
    AdapterImpl.wait_available exAdapter = (.ok (), false) ∧
    (AdapterImpl.wait_available exWaitAdapter).2 = true ∧
    (AdapterImpl.wait_available exWaitAdapter).1 = .ok () :=
  ⟨(wait_available_subscription_discipline exAdapter).1 rfl,
   ((wait_available_subscription_discipline exWaitAdapter).2 rfl).1,
   ((wait_available_subscription_discipline exWaitAdapter).2 rfl).2
     [.ok AdapterEvent.unavailable] [] rfl (by decide)⟩

/-- C7: when the adapter is not powered and the subscribed event stream terminates
without ever delivering an `Available` transition, `wait_available()` fails with an
`Internal` error (reaching the end of the finite stream) rather than hanging. -/
theorem wait_available_internal_on_closed_stream (a : BluerAdapter)
    (hp : a.powered = false)
    (h : Except.ok AdapterEvent.available ∉ AdapterImpl.events a) :
    AdapterImpl.wait_available a =
      (.error ⟨.internal, "adapter event stream closed unexpectedly"⟩, true) := by
  simp only [AdapterImpl.wait_available, hp, Bool.false_eq_true, if_false]
  rw [waitLoop_no_available (AdapterImpl.events a) (events_shape a) h]

/-- Witness for C7: an unpowered adapter whose raw stream delivers only a power-off
transition and an unrelated event before closing. -/
theorem wait_available_internal_on_closed_stream_witness :
    AdapterImpl.wait_available exClosedAdapter =
      (.error ⟨.internal, "adapter event stream closed unexpectedly"⟩, true) :=
  wait_available_internal_on_closed_stream exClosedAdapter rfl (by decide)

/-- C8: `connected_devices_with_services` with an empty `services` slice panics (a
programming-error rejection via `assert!`, not a runtime `Result`) before any radio
I/O — the effect trace is empty; with non-empty `services` it returns exactly the
connected devices among the enumerated addresses that expose at least one of the given
service UUIDs. -/
theorem connected_devices_with_services_contract (a : BluerAdapter)
    (services : List Uuid) :
    (services = [] →
      AdapterImpl.connected_devices_with_services a services = (.panicked, [])) ∧
    (services ≠ [] →
      ∀ devs, (AdapterImpl.connected_devices_with_services a services).1 = .ok devs →
        ∀ d, d ∈ devs ↔
          (d ∈ a.knownAddrs.filterMap a.findDevice ∧ d.connected = true ∧
           ∃ u ∈ d.gattServices, u ∈ services)) := by
  constructor
  · intro hs
    subst hs
    rfl
  · intro hs devs hdevs d
    cases services with
    | nil => exact absurd rfl hs
    | cons s ss =>
      simp only [AdapterImpl.connected_devices_with_services, List.isEmpty_cons,
        Bool.false_eq_true, if_false, AdapterImpl.connected_devices,
        RustOutcome.ok.injEq] at hdevs
      subst hdevs
      simp only [List.mem_filter, List.any_eq_true, decide_eq_true_eq, List.mem_cons]
      aesop

/-- Witness for C8: the empty filter panics with no I/O; with filter `[42]` the single
connected device exposing service 42 is in the result as the membership rule
prescribes. -/
theorem connected_devices_with_services_contract_witness :
    AdapterImpl.connected_devices_with_services exAdapter [] = (.panicked, []) ∧
    (exDevice ∈ [exDevice] ↔
      (exDevice ∈ exAdapter.knownAddrs.filterMap exAdapter.findDevice ∧
       exDevice.connected = true ∧ ∃ u ∈ exDevice.gattServices, u ∈ [42])) :=
  ⟨(connected_devices_with_services_contract exAdapter []).1 rfl,
   (connected_devices_with_services_contract exAdapter [42]).2 (by decide)
     [exDevice] rfl exDevice⟩

end Bluest
